import Mathlib

/-!
Shallow embedding of the ProCircle discount service (Express + Prisma).

Sources embedded here:
- server/routes/discounts.mjs   (first revision in the file; the one the
  claims cite by line): api-key middleware, validateDiscountPayload, the
  POST /create pipeline (eligibility gates, Shopify publish, ledger insert).
- server/routes/webhooks.mjs    (first revision): POST /orders-create and
  POST /app-uninstalled with raw-body HMAC verification.
- server/webhooks/appUninstalled.mjs.
- utils/generateCode.js variants (part_006 crypto.randomBytes variant,
  part_007 Web-Crypto variant, part_007 Math.random variant).
- prisma migration 20251027205836_add_discount_table (unique index on
  Discount.code only).

Modelling conventions: JavaScript numbers are modelled as integers plus an
explicit NaN value (no claim depends on fractional values); absent / null / undefined JSON fields are Option; JS
string falsiness (undefined, null, "") is made explicit; timestamps are
integers (milliseconds); database tables are lists of records; the random
entropy of the code generator and the HMAC function of the webhook verifier
are explicit parameters, so every definition is executable.
-/

namespace ProCircle

/-- Result of the JS coercion Number(x): NaN or a numeric value. -/
inductive JsNum where
  | nan
  | num (q : Int)
deriving DecidableEq, Repr

/-- JS string falsiness: undefined, null and "" are falsy. -/
def strFalsy : Option String → Bool
  | none => true
  | some s => s == ""

/-- JS x || "" for an optional string. -/
def jsStrOrEmpty : Option String → String
  | none => ""
  | some s => s

/-- JS Number(x) || 1 : NaN and 0 are falsy and give 1. -/
def jsOrOne : JsNum → Int
  | .nan => 1
  | .num q => if q = 0 then 1 else q

/-- isNaN(amount) || amount <= 0 || amount > 100, from
validateDiscountPayload in server/routes/discounts.mjs. -/
def jsNumIsBadAmount : JsNum → Bool
  | .nan => true
  | .num q => decide (q ≤ 0) || decide (100 < q)

/-- The JSON body of POST /api/discounts/create as the route reads it.
Fields already reflect the JS coercions applied at the read site:
amount is Number(body.amount); expiryDays / maxDiscounts are none exactly
when the JS value == null; list fields are none when not an array. -/
structure RawBody where
  shopDomain : Option String
  userId : Option String
  email : Option String
  name : Option String
  amount : JsNum
  expiryDays : Option JsNum
  maxDiscounts : Option JsNum
  oneTimeUse : Bool
  categories : Option (List String)
  allowedCountries : Option (List String)
  allowedMemberTypes : Option (List String)
deriving DecidableEq, Repr

/-- The normalized request object built by validateDiscountPayload. -/
structure CleanPayload where
  shopDomain : Option String
  userId : Option String
  email : Option String
  name : String
  amount : JsNum
  expiryDays : Option Int
  maxDiscounts : Option JsNum
  oneTimeUse : Bool
  categories : List String
  allowedCountries : List String
  allowedMemberTypes : List String
deriving DecidableEq, Repr

structure ValidationResult where
  errors : List String
  clean : CleanPayload
deriving DecidableEq, Repr

/-- validateDiscountPayload from server/routes/discounts.mjs lines 40-80.
Pushes one error message per violated required field or bad amount; clamps
expiryDays into [1,365] via Math.max(1, Math.min(365, Number(x) || 1));
passes maxDiscounts through unchecked; coerces lists to [] when absent. -/
def validateDiscountPayload (body : RawBody) : ValidationResult :=
  let errors :=
    (if strFalsy body.shopDomain then ["shopDomain required"] else []) ++
    (if strFalsy body.userId then ["userId required"] else []) ++
    (if strFalsy body.email then ["email required"] else []) ++
    (if jsNumIsBadAmount body.amount then
      ["amount must be 1–100 (percentage only)"] else [])
  let expiryDays : Option Int :=
    match body.expiryDays with
    | none => none
    | some v => some (max 1 (min 365 (jsOrOne v)))
  { errors := errors
    clean :=
      { shopDomain := body.shopDomain
        userId := body.userId
        email := body.email
        name := jsStrOrEmpty body.name
        amount := body.amount
        expiryDays := expiryDays
        maxDiscounts := body.maxDiscounts
        oneTimeUse := body.oneTimeUse
        categories := body.categories.getD []
        allowedCountries := body.allowedCountries.getD []
        allowedMemberTypes := body.allowedMemberTypes.getD [] } }

/-- First character of a token, uppercased (part[0].toUpperCase()). -/
def firstInitial (p : String) : Option Char := p.toList.head?.map Char.toUpper

/-- Splits a character list at separator characters, dropping the empty
pieces. This is the common semantics of both generator variants:
trim().split(whitespace-regex) and split(" ").filter(Boolean) keep exactly
the nonempty pieces between separators. -/
def tokensBy (isSep : Char → Bool) : List Char → List Char → List String
  | [], acc => if acc.isEmpty then [] else [String.mk acc.reverse]
  | c :: cs, acc =>
    if isSep c then
      if acc.isEmpty then tokensBy isSep cs []
      else String.mk acc.reverse :: tokensBy isSep cs []
    else tokensBy isSep cs (c :: acc)

/-- Tokens of String(name).trim().split(whitespace-runs). -/
def nameTokens (name : String) : List String :=
  tokensBy (fun c => c.isWhitespace) name.toList []

/-- Initials of utils/generateCode.js (part_006): join the uppercased first
characters of the whitespace tokens, then substring(0,3). -/
def initialsOf (name : String) : String :=
  String.mk (((nameTokens name).filterMap firstInitial).take 3)

/-- One uppercase hex digit for n in [0,16). -/
def hexDigitU (n : Nat) : Char :=
  if n < 10 then Char.ofNat (48 + n) else Char.ofNat (55 + n)

/-- Two uppercase hex digits of one byte (toString("hex") + toUpperCase). -/
def byteHexU (b : Nat) : List Char := [hexDigitU (b % 256 / 16), hexDigitU (b % 16)]

/-- Uppercase hex encoding of a byte list. -/
def hexUpper (bytes : List Nat) : String := String.mk ((bytes.map byteHexU).flatten)

/-- generateDiscountCode from utils/generateCode.js, part_006 lines 13-26:
crypto.randomBytes(3).toString("hex").toUpperCase() as the suffix, initials
capped at 3 with fallback "XX". The 3 random bytes are the entropy
parameter. -/
def generateDiscountCode (name : String) (entropy : List Nat) : String :=
  let initials := initialsOf name
  "PRC-" ++ (if initials = "" then "XX" else initials) ++ "-" ++ hexUpper entropy

/-- Initials of the part_007 variants: name.split(" ").filter(Boolean)
.map(p => p[0].toUpperCase()).join("") — no cap, no fallback. -/
def initialsUncapped (name : String) : String :=
  String.mk ((tokensBy (fun c => c = ' ') name.toList []).filterMap firstInitial)

/-- generateDiscountCode, part_007 lines 3-22 (Web Crypto variant): suffix is
hex of 3 getRandomValues bytes, substring(0,4), uppercased (uppercasing a hex
string commutes with substring, so we take 4 of the uppercase encoding). -/
def generateDiscountCode_webcrypto (name : String) (entropy : List Nat) : String :=
  "PC-" ++ initialsUncapped name ++ "-" ++ String.mk (((entropy.map byteHexU).flatten).take 4)

/-- generateDiscountCode, part_007 lines 24-33 (Math.random variant): the
rand parameter stands for Math.random().toString(36).substring(2, 6). -/
def generateDiscountCode_mathRandom (name : String) (rand : String) : String :=
  "PRC-" ++ initialsUncapped name ++ "-" ++ String.mk (rand.toList.map Char.toUpper)

/-- Row of ShopSettings (migration 20251103093547 and the postgres variant in
part_010). Integer columns are Option Int (nullable); list columns are text
arrays. -/
structure ShopSettings where
  allowedCountries : List String
  allowedMemberTypes : List String
  maxDiscounts : Option Int
  expiryDays : Option Int
  categories : List String
deriving DecidableEq, Repr

/-- Row of Shop. accessToken is nullable because appUninstalled.mjs sets it
to null. settings is the 1:1 include used by the route. -/
structure Shop where
  id : Nat
  shopDomain : String
  accessToken : Option String
  installed : Bool
  uninstalledAt : Option Int
  updatedAt : Int
  settings : Option ShopSettings
deriving DecidableEq, Repr

/-- Row of Discount (migration 20251027205836 plus the userId/email columns
the route writes). Timestamps are epoch milliseconds as rationals. -/
structure DiscountRecord where
  id : Nat
  shopId : Nat
  userId : String
  email : String
  code : String
  type : String
  amount : Int
  createdAt : Int
  expiresAt : Int
  syncedToShopify : Bool
  redeemedAt : Option Int
  orderId : Option String
  orderAmount : Option Int
deriving DecidableEq, Repr

/-- Database state: the two tables the core touches. -/
structure Db where
  shops : List Shop
  discounts : List DiscountRecord
deriving DecidableEq, Repr

/-- Unique indexes created by migration 20251027205836_add_discount_table on
the Discount table: only Discount_code_key, on (code). There is no unique
index on (shopId, userId). -/
def discountUniqueIndexes : List (List String) := [["code"]]

/-- The api-key middleware router.use of server/routes/discounts.mjs lines
14-23: rejects when the x-api-key header is absent, empty (JS falsy) or not
strictly equal to the GOOGLE_SHEET_SECRET environment value (comparison with
an unset environment value is always unequal). -/
def apiKeyRejected (apiKey secret : Option String) : Bool :=
  match apiKey with
  | none => true
  | some t => t == "" || (match secret with
      | none => true
      | some s => t != s)

/-- Country gate (Step 3): applies only when settings exist and the allow
list is nonempty; blocked when request countries do not intersect it. -/
def countryBlocked (settings : Option ShopSettings) (clean : CleanPayload) : Bool :=
  match settings with
  | none => false
  | some st =>
    !st.allowedCountries.isEmpty &&
      !(clean.allowedCountries.any fun c => st.allowedCountries.contains c)

/-- Member-type gate (Step 3), same pattern as the country gate. -/
def memberBlocked (settings : Option ShopSettings) (clean : CleanPayload) : Bool :=
  match settings with
  | none => false
  | some st =>
    !st.allowedMemberTypes.isEmpty &&
      !(clean.allowedMemberTypes.any fun t => st.allowedMemberTypes.contains t)

/-- prisma.discount.findFirst where shopId and userId (Step 4): true when
some row for the pair exists. The route applies no active/redeemed filter. -/
def duplicateExists (db : Db) (shopId : Nat) (userId : Option String) : Bool :=
  db.discounts.any fun d => d.shopId == shopId && userId == some d.userId

/-- prisma.discount.count where shopId. -/
def countByShop (db : Db) (shopId : Nat) : Nat :=
  (db.discounts.filter fun d => d.shopId == shopId).length

/-- Quota gate (Step 4): runs only when settings.maxDiscounts is truthy and
positive; blocked when the count reached it. -/
def quotaBlocked (settings : Option ShopSettings) (total : Nat) : Bool :=
  match settings with
  | none => false
  | some st =>
    match st.maxDiscounts with
    | none => false
    | some m => decide (0 < m) && decide (m ≤ (total : Int))

/-- expiryDays = clean.expiryDays ?? settings.expiryDays ?? 30 (Step 5). -/
def resolveExpiryDays (clean : CleanPayload) (settings : Option ShopSettings) : Int :=
  match clean.expiryDays with
  | some d => d
  | none =>
    match settings with
    | none => 30
    | some st =>
      match st.expiryDays with
      | none => 30
      | some d => d

/-- Numeric value of an amount that passed validation (NaN is unreachable
there because jsNumIsBadAmount rejects it). -/
def jsNumVal : JsNum → Int
  | .nan => 0
  | .num q => q

/-- Outcome of the Shopify Admin GraphQL publish call (Step 8), as the route
discriminates it: HTTP failure, missing discountCodeBasicCreate payload,
nonempty userErrors, or success. -/
inductive PublishOutcome where
  | httpError
  | malformed
  | userErrors
  | ok
deriving DecidableEq, Repr

/-- The row Step 9 persists (prisma.discount.create data): percentage type,
expiry at now + resolved-days worth of milliseconds, redemption fields
null. -/
def savedRow (clean : CleanPayload) (shop : Shop) (code : String) (now : Int)
    (newId : Nat) : DiscountRecord where
  id := newId
  shopId := shop.id
  userId := jsStrOrEmpty clean.userId
  email := jsStrOrEmpty clean.email
  code := code
  type := "percentage"
  amount := jsNumVal clean.amount
  createdAt := now
  expiresAt := now + resolveExpiryDays clean shop.settings * 86400000
  syncedToShopify := false
  redeemedAt := none
  orderId := none
  orderAmount := none

/-- Result of one POST /api/discounts/create request: HTTP status, database
after the request, and the row inserted by Step 9 when there was one. -/
structure IssueResult where
  status : Nat
  db : Db
  inserted : Option DiscountRecord
deriving DecidableEq, Repr

/-- POST /api/discounts/create from server/routes/discounts.mjs lines
114-308, with the two database accesses split: the shop lookup, duplicate
findFirst and quota count read dbCheck, while the Step 9 insert lands in
dbInsert. In a serialized execution both are the same state (see issuance);
passing different states models a second request whose reads happened before
a first request committed its insert. The generated code, the publish
outcome, the clock and the fresh row id are explicit parameters. The catch
block maps a thrown unique-violation on Discount_code_key to 500. -/
def issuanceRW (secret apiKey : Option String) (body : RawBody)
    (dbCheck dbInsert : Db) (publish : PublishOutcome) (code : String)
    (now : Int) (newId : Nat) : IssueResult :=
  if apiKeyRejected apiKey secret then ⟨401, dbInsert, none⟩
  else
    let v := validateDiscountPayload body
    if !v.errors.isEmpty then ⟨400, dbInsert, none⟩
    else
      match dbCheck.shops.find? (fun s => v.clean.shopDomain == some s.shopDomain) with
      | none => ⟨404, dbInsert, none⟩
      | some shop =>
        if countryBlocked shop.settings v.clean then ⟨403, dbInsert, none⟩
        else if memberBlocked shop.settings v.clean then ⟨403, dbInsert, none⟩
        else if duplicateExists dbCheck shop.id v.clean.userId then ⟨409, dbInsert, none⟩
        else if quotaBlocked shop.settings (countByShop dbCheck shop.id) then ⟨429, dbInsert, none⟩
        else
          match publish with
          | .httpError => ⟨502, dbInsert, none⟩
          | .malformed => ⟨500, dbInsert, none⟩
          | .userErrors => ⟨400, dbInsert, none⟩
          | .ok =>
            if dbInsert.discounts.any (fun d => d.code == code) then
              ⟨500, dbInsert, none⟩
            else
              let saved := savedRow v.clean shop code now newId
              ⟨200, { dbInsert with discounts := dbInsert.discounts ++ [saved] }, some saved⟩

/-- One serialized POST /api/discounts/create request: reads and the insert
see the same database state. -/
def issuance (secret apiKey : Option String) (body : RawBody) (db : Db)
    (publish : PublishOutcome) (code : String) (now : Int) (newId : Nat) : IssueResult :=
  issuanceRW secret apiKey body db db publish code now newId

/-- The request body of a webhook delivery as the route sees it: the raw
buffer captured by express.raw, or an already-parsed/mutated body (the
Buffer.isBuffer check fails on it). -/
inductive WebhookBody where
  | raw (bytes : List Nat)
  | parsed
deriving DecidableEq, Repr

/-- The fields of the order-created payload the reconciler reads:
order.discount_codes[*].code, order.id.toString(), new Date(order.created_at)
and parseFloat(order.total_price). -/
structure OrderPayload where
  discountCodes : List String
  orderId : String
  createdAt : Int
  totalPrice : Int
deriving DecidableEq, Repr

/-- Result of one webhook delivery: HTTP status and database after it. -/
structure WebhookResult where
  status : Nat
  db : Db
deriving DecidableEq, Repr

/-- The prisma.discount.update of webhooks.mjs lines 62-69: unconditionally
overwrites redeemedAt, orderId and orderAmount of the row with the given id.
There is no guard on an already-set redeemedAt. -/
def applyRedemption (order : OrderPayload) (targetId : Nat) (d : DiscountRecord) : DiscountRecord :=
  if d.id == targetId then
    { d with
      redeemedAt := some order.createdAt
      orderId := some order.orderId
      orderAmount := some order.totalPrice }
  else d

/-- The reconciliation tail of POST /webhooks/orders-create (lines 44-72):
a missing or empty first applied code ends with 200 and no change; an
unknown code ends with 200 and no change; a found row is overwritten by
applyRedemption and the delivery ends with 200. -/
def reconcileOrder (order : OrderPayload) (db : Db) : WebhookResult :=
  match order.discountCodes.head? with
  | none => ⟨200, db⟩
  | some code =>
    if code == "" then ⟨200, db⟩
    else
      match db.discounts.find? (fun d => d.code == code) with
      | none => ⟨200, db⟩
      | some d =>
        ⟨200, { db with discounts := db.discounts.map (applyRedemption order d.id) }⟩

/-- POST /webhooks/orders-create from server/routes/webhooks.mjs lines
14-78. hmacB64 models crypto.createHmac("sha256", secret).update(raw)
.digest("base64"); decodeOrder models JSON.parse plus field extraction,
returning none when parsing throws. Non-buffer body gives 400; a missing
secret makes createHmac throw, caught as 500; a header differing from the
computed digest (including an absent header) gives 401; a verified delivery
runs reconcileOrder. -/
def ordersCreate (hmacB64 : String → List Nat → String) (secret : Option String)
    (header : Option String) (body : WebhookBody)
    (decodeOrder : List Nat → Option OrderPayload) (db : Db) : WebhookResult :=
  match body with
  | .parsed => ⟨400, db⟩
  | .raw bytes =>
    match secret with
    | none => ⟨500, db⟩
    | some s =>
      if header == some (hmacB64 s bytes) then
        match decodeOrder bytes with
        | none => ⟨500, db⟩
        | some order => reconcileOrder order db
      else ⟨401, db⟩

/-- The fields of the app-uninstalled payload the route reads. -/
structure UninstallPayload where
  myshopifyDomain : Option String
  domain : Option String
deriving DecidableEq, Repr

/-- JS a || b over optional strings ("" is falsy). -/
def jsOrStr (a b : Option String) : Option String :=
  if strFalsy a then b else a

/-- appUninstalledHandler from server/webhooks/appUninstalled.mjs: updates
the shop row by domain; a throw from update (domain undefined or no matching
row) is caught inside the handler and changes nothing. -/
def appUninstalledHandler (shopDomain : Option String) (now : Int) (db : Db) : Db :=
  match shopDomain with
  | none => db
  | some dom =>
    if db.shops.any (fun s => s.shopDomain == dom) then
      { db with
        shops := db.shops.map fun s =>
          if s.shopDomain == dom then
            { s with installed := false, uninstalledAt := some now,
                     accessToken := none, updatedAt := now }
          else s }
    else db

/-- POST /webhooks/app-uninstalled from server/routes/webhooks.mjs lines
83-123: same verification shape as orders-create but with the
SHOPIFY_WEBHOOK_SECRET environment value, then the uninstall handler on
body.myshopify_domain || body.domain || the X-Shopify-Shop-Domain header. -/
def appUninstalled (hmacB64 : String → List Nat → String) (secret : Option String)
    (header : Option String) (body : WebhookBody)
    (decodeUninstall : List Nat → Option UninstallPayload)
    (headerDomain : Option String) (now : Int) (db : Db) : WebhookResult :=
  match body with
  | .parsed => ⟨400, db⟩
  | .raw bytes =>
    match secret with
    | none => ⟨500, db⟩
    | some s =>
      if header == some (hmacB64 s bytes) then
        match decodeUninstall bytes with
        | none => ⟨500, db⟩
        | some p =>
          ⟨200, appUninstalledHandler
            (jsOrStr p.myshopifyDomain (jsOrStr p.domain headerDomain)) now db⟩
      else ⟨401, db⟩

/-! Concrete fixtures used by witnesses and counterexamples. -/

/-- A shop with no settings row (settings include comes back null). -/
def shopA : Shop where
  id := 1
  shopDomain := "demo-shop.myshopify.com"
  accessToken := some "shpat_test_token_12345"
  installed := true
  uninstalledAt := none
  updatedAt := 0
  settings := none

/-- Empty ledger, one shop. -/
def db0 : Db := { shops := [shopA], discounts := [] }

/-- A well-formed issuance body for user alice. -/
def bodyAlice : RawBody where
  shopDomain := some "demo-shop.myshopify.com"
  userId := some "alice"
  email := some "alice@example.com"
  name := some "Alice Smith"
  amount := .num 20
  expiryDays := none
  maxDiscounts := none
  oneTimeUse := false
  categories := none
  allowedCountries := none
  allowedMemberTypes := none

/-- A well-formed issuance body for user bob on the same shop. -/
def bodyBob : RawBody where
  shopDomain := some "demo-shop.myshopify.com"
  userId := some "bob"
  email := some "bob@example.com"
  name := some "Bob Jones"
  amount := .num 20
  expiryDays := none
  maxDiscounts := none
  oneTimeUse := false
  categories := none
  allowedCountries := none
  allowedMemberTypes := none

/-- Configured GOOGLE_SHEET_SECRET and a matching x-api-key header. -/
def secretEnv : Option String := some "sheet-secret"

/-- The row issuance inserts for alice in db0 at time 0 with id 1. -/
def discAlice : DiscountRecord where
  id := 1
  shopId := 1
  userId := "alice"
  email := "alice@example.com"
  code := "PRC-AS-000001"
  type := "percentage"
  amount := 20
  createdAt := 0
  expiresAt := 2592000000
  syncedToShopify := false
  redeemedAt := none
  orderId := none
  orderAmount := none

/-- Ledger already holding the alice row. -/
def db1 : Db := { shops := [shopA], discounts := [discAlice] }

/-- First of two concurrent identical requests: reads and insert both on
db0. -/
def race1 : IssueResult :=
  issuanceRW secretEnv secretEnv bodyAlice db0 db0 .ok "PRC-AS-000001" 0 1

/-- Second concurrent request: its findFirst ran against db0, before race1
committed, but its insert lands after race1 (into race1.db). -/
def race2 : IssueResult :=
  issuanceRW secretEnv secretEnv bodyAlice db0 race1.db .ok "PRC-AS-000002" 0 2

/-- A fully successful serialized request for alice on the empty ledger. -/
def okIssue : IssueResult :=
  issuance secretEnv secretEnv bodyAlice db0 .ok "PRC-AS-000001" 0 1

/-! Claim theorems: issuance path. -/

/-- C10: any request whose x-api-key header does not carry the configured
internal secret is answered 401 and touches nothing: the result is 401 with
the database unchanged and no insert, whatever the body, database and
publish outcome — so validation, eligibility, the external call and the
ledger are never reached. -/
theorem C10_api_key_gate (secret apiKey : Option String) (body : RawBody)
    (db : Db) (publish : PublishOutcome) (code : String) (now : Int) (newId : Nat)
    (h : ∀ t, apiKey = some t → secret ≠ some t) :
    (issuance secret apiKey body db publish code now newId).status = 401 ∧
    (issuance secret apiKey body db publish code now newId).db = db ∧
    (issuance secret apiKey body db publish code now newId).inserted = none := by
  have hrej : apiKeyRejected apiKey secret = true := by
    cases apiKey with
    | none => rfl
    | some t =>
      cases secret with
      | none => simp [apiKeyRejected]
      | some s =>
        have hts : t ≠ s := fun e => h t rfl (by rw [e])
        simp [apiKeyRejected, hts]
  unfold issuance issuanceRW
  simp [hrej]

/-- C10 witness: a request with a wrong key against the configured secret is
rejected with 401 and leaves the ledger alone. -/
theorem C10_api_key_gate_witness :
    (issuance secretEnv (some "wrong-key") bodyAlice db0 .ok "PRC-AS-000001" 0 1).status = 401 ∧
    (issuance secretEnv (some "wrong-key") bodyAlice db0 .ok "PRC-AS-000001" 0 1).db = db0 ∧
    (issuance secretEnv (some "wrong-key") bodyAlice db0 .ok "PRC-AS-000001" 0 1).inserted = none :=
  C10_api_key_gate secretEnv (some "wrong-key") bodyAlice db0 .ok "PRC-AS-000001" 0 1
    (by intro t h1 h2
        injection h1 with e1
        injection h2 with e2
        subst e1
        exact absurd e2 (by decide))

/-- C6: when the Shopify publish call does not succeed (HTTP failure,
malformed response, or platform userErrors), the request writes nothing to
the ledger: the database is returned unchanged and no row is inserted. -/
theorem C6_no_ledger_write_on_publish_failure (secret apiKey : Option String)
    (body : RawBody) (db : Db) (publish : PublishOutcome) (code : String)
    (now : Int) (newId : Nat) (h : publish ≠ PublishOutcome.ok) :
    (issuance secret apiKey body db publish code now newId).db = db ∧
    (issuance secret apiKey body db publish code now newId).inserted = none := by
  unfold issuance issuanceRW
  cases publish with
  | ok => exact absurd rfl h
  | httpError => refine ⟨?_, ?_⟩ <;> (dsimp only; (repeat' split) <;> rfl)
  | malformed => refine ⟨?_, ?_⟩ <;> (dsimp only; (repeat' split) <;> rfl)
  | userErrors => refine ⟨?_, ?_⟩ <;> (dsimp only; (repeat' split) <;> rfl)

/-- C6 witness: a transport-level publish failure on an otherwise fully
eligible request leaves the empty ledger empty. -/
theorem C6_no_ledger_write_on_publish_failure_witness :
    (issuance secretEnv secretEnv bodyAlice db0 .httpError "PRC-AS-000001" 0 1).db = db0 ∧
    (issuance secretEnv secretEnv bodyAlice db0 .httpError "PRC-AS-000001" 0 1).inserted = none :=
  C6_no_ledger_write_on_publish_failure secretEnv secretEnv bodyAlice db0 .httpError
    "PRC-AS-000001" 0 1 (by decide)

/-- C4 counterexample: a fully successful issuance request (valid key,
eligible, publish ok, fresh code) is answered with status 200 — the route
ends in res.json with no status call — not 201 as the claim states. -/
theorem C4_counterexample :
    okIssue.status = 200 ∧ okIssue.status ≠ 201 ∧
    okIssue.inserted = some discAlice ∧
    okIssue.db.discounts = [discAlice] := by decide

/-- C4 amended: once the api key, validation and the shop lookup pass, the
eligibility checks run in the fixed order country allow-list, member-type
allow-list, duplicate (shop, user) check, quota check, short-circuiting on
the first failure with 403, 403, 409, 429 and an unchanged ledger; a fully
successful request is answered 200 (not 201) with the persisted row. -/
theorem C4_gate_order (secret apiKey : Option String) (body : RawBody) (db : Db)
    (publish : PublishOutcome) (code : String) (now : Int) (newId : Nat) (shop : Shop)
    (hauth : apiKeyRejected apiKey secret = false)
    (hval : (validateDiscountPayload body).errors = [])
    (hshop : db.shops.find?
      (fun s => (validateDiscountPayload body).clean.shopDomain == some s.shopDomain) = some shop) :
    (countryBlocked shop.settings (validateDiscountPayload body).clean = true →
      issuance secret apiKey body db publish code now newId = ⟨403, db, none⟩) ∧
    (countryBlocked shop.settings (validateDiscountPayload body).clean = false →
      memberBlocked shop.settings (validateDiscountPayload body).clean = true →
      issuance secret apiKey body db publish code now newId = ⟨403, db, none⟩) ∧
    (countryBlocked shop.settings (validateDiscountPayload body).clean = false →
      memberBlocked shop.settings (validateDiscountPayload body).clean = false →
      duplicateExists db shop.id (validateDiscountPayload body).clean.userId = true →
      issuance secret apiKey body db publish code now newId = ⟨409, db, none⟩) ∧
    (countryBlocked shop.settings (validateDiscountPayload body).clean = false →
      memberBlocked shop.settings (validateDiscountPayload body).clean = false →
      duplicateExists db shop.id (validateDiscountPayload body).clean.userId = false →
      quotaBlocked shop.settings (countByShop db shop.id) = true →
      issuance secret apiKey body db publish code now newId = ⟨429, db, none⟩) ∧
    (countryBlocked shop.settings (validateDiscountPayload body).clean = false →
      memberBlocked shop.settings (validateDiscountPayload body).clean = false →
      duplicateExists db shop.id (validateDiscountPayload body).clean.userId = false →
      quotaBlocked shop.settings (countByShop db shop.id) = false →
      publish = PublishOutcome.ok →
      (db.discounts.any fun d => d.code == code) = false →
      issuance secret apiKey body db publish code now newId =
        ⟨200,
         { db with discounts := db.discounts ++
             [savedRow (validateDiscountPayload body).clean shop code now newId] },
         some (savedRow (validateDiscountPayload body).clean shop code now newId)⟩) := by
  refine ⟨?_, ?_, ?_, ?_, ?_⟩ <;>
    (intros; unfold issuance issuanceRW; simp [hauth, hval, hshop, *])

/-- C4 witness: the amended gate-order theorem instantiated on the demo shop
with an eligible alice request. -/
theorem C4_gate_order_witness :
    (countryBlocked shopA.settings (validateDiscountPayload bodyAlice).clean = true →
      issuance secretEnv secretEnv bodyAlice db0 .ok "PRC-AS-000001" 0 1 = ⟨403, db0, none⟩) ∧
    (countryBlocked shopA.settings (validateDiscountPayload bodyAlice).clean = false →
      memberBlocked shopA.settings (validateDiscountPayload bodyAlice).clean = true →
      issuance secretEnv secretEnv bodyAlice db0 .ok "PRC-AS-000001" 0 1 = ⟨403, db0, none⟩) ∧
    (countryBlocked shopA.settings (validateDiscountPayload bodyAlice).clean = false →
      memberBlocked shopA.settings (validateDiscountPayload bodyAlice).clean = false →
      duplicateExists db0 shopA.id (validateDiscountPayload bodyAlice).clean.userId = true →
      issuance secretEnv secretEnv bodyAlice db0 .ok "PRC-AS-000001" 0 1 = ⟨409, db0, none⟩) ∧
    (countryBlocked shopA.settings (validateDiscountPayload bodyAlice).clean = false →
      memberBlocked shopA.settings (validateDiscountPayload bodyAlice).clean = false →
      duplicateExists db0 shopA.id (validateDiscountPayload bodyAlice).clean.userId = false →
      quotaBlocked shopA.settings (countByShop db0 shopA.id) = true →
      issuance secretEnv secretEnv bodyAlice db0 .ok "PRC-AS-000001" 0 1 = ⟨429, db0, none⟩) ∧
    (countryBlocked shopA.settings (validateDiscountPayload bodyAlice).clean = false →
      memberBlocked shopA.settings (validateDiscountPayload bodyAlice).clean = false →
      duplicateExists db0 shopA.id (validateDiscountPayload bodyAlice).clean.userId = false →
      quotaBlocked shopA.settings (countByShop db0 shopA.id) = false →
      PublishOutcome.ok = PublishOutcome.ok →
      (db0.discounts.any fun d => d.code == "PRC-AS-000001") = false →
      issuance secretEnv secretEnv bodyAlice db0 .ok "PRC-AS-000001" 0 1 =
        ⟨200,
         { db0 with discounts := db0.discounts ++
             [savedRow (validateDiscountPayload bodyAlice).clean shopA "PRC-AS-000001" 0 1] },
         some (savedRow (validateDiscountPayload bodyAlice).clean shopA "PRC-AS-000001" 0 1)⟩) :=
  C4_gate_order secretEnv secretEnv bodyAlice db0 .ok "PRC-AS-000001" 0 1 shopA
    (by decide) (by decide) (by decide)

/-- C1 counterexample: two concurrent issuance requests for the same
(shop, user) pair, each of whose findFirst duplicate check ran before the
other insert committed, both succeed with 200 (neither 409 nor 201) and
leave two rows for (shop 1, alice); the migration carries no unique index on
(shopId, userId), so no database constraint stops the second insert. -/
theorem C1_counterexample :
    race1.status = 200 ∧ race2.status = 200 ∧
    race1.status ≠ 409 ∧ race2.status ≠ 409 ∧
    race1.status ≠ 201 ∧ race2.status ≠ 201 ∧
    (race2.db.discounts.filter fun d => d.shopId == 1 && d.userId == "alice").length = 2 ∧
    ["shopId", "userId"] ∉ discountUniqueIndexes := by decide

/-- C1 amended: the one-active-record-per-(shop, user) rule is enforced only
by a sequential findFirst-then-create: when a request is serialized after an
existing record for the pair, it is answered 409 (the success path answers
200, not 201) and nothing is written; under interleaving the check is a
plain read-then-write with no database uniqueness backstop. -/
theorem C1_sequential_duplicate (secret apiKey : Option String) (body : RawBody)
    (db : Db) (publish : PublishOutcome) (code : String) (now : Int) (newId : Nat)
    (shop : Shop)
    (hauth : apiKeyRejected apiKey secret = false)
    (hval : (validateDiscountPayload body).errors = [])
    (hshop : db.shops.find?
      (fun s => (validateDiscountPayload body).clean.shopDomain == some s.shopDomain) = some shop)
    (hc : countryBlocked shop.settings (validateDiscountPayload body).clean = false)
    (hm : memberBlocked shop.settings (validateDiscountPayload body).clean = false)
    (hdup : duplicateExists db shop.id (validateDiscountPayload body).clean.userId = true) :
    issuance secret apiKey body db publish code now newId = ⟨409, db, none⟩ := by
  unfold issuance issuanceRW
  simp [hauth, hval, hshop, hc, hm, hdup]

/-- C1 witness: a second serialized request for alice against the ledger
already holding her row is answered 409 and changes nothing. -/
theorem C1_sequential_duplicate_witness :
    issuance secretEnv secretEnv bodyAlice db1 .ok "PRC-AS-000002" 0 2 = ⟨409, db1, none⟩ :=
  C1_sequential_duplicate secretEnv secretEnv bodyAlice db1 .ok "PRC-AS-000002" 0 2 shopA
    (by decide) (by decide) (by decide) (by decide) (by decide) (by decide)

/-- bob requests while the ledger already holds the alice row whose code
collides with the code generated for bob. -/
def collideIssue : IssueResult :=
  issuance secretEnv secretEnv bodyBob db1 .ok "PRC-AS-000001" 0 2

/-- The same request with a fresh regenerated code would have succeeded. -/
def retryIssue : IssueResult :=
  issuance secretEnv secretEnv bodyBob db1 .ok "PRC-BJ-000002" 0 2

/-- C8 counterexample: when the generated code already exists in the ledger,
the insert throws on Discount_code_key and the catch block answers 500 with
nothing written — there is no second attempt, although a retry with a fresh
code would have succeeded (status 200). -/
theorem C8_counterexample :
    collideIssue.status = 500 ∧ collideIssue.db = db1 ∧ collideIssue.inserted = none ∧
    retryIssue.status = 200 := by decide

/-- C8 amended: a uniqueness violation of the generated code at insert time
surfaces directly as a 500 error with the ledger unchanged; the issuance
path performs no regeneration and no retried insert. -/
theorem C8_collision_surfaces_500 (secret apiKey : Option String) (body : RawBody)
    (db : Db) (publish : PublishOutcome) (code : String) (now : Int) (newId : Nat)
    (shop : Shop)
    (hauth : apiKeyRejected apiKey secret = false)
    (hval : (validateDiscountPayload body).errors = [])
    (hshop : db.shops.find?
      (fun s => (validateDiscountPayload body).clean.shopDomain == some s.shopDomain) = some shop)
    (hc : countryBlocked shop.settings (validateDiscountPayload body).clean = false)
    (hm : memberBlocked shop.settings (validateDiscountPayload body).clean = false)
    (hdup : duplicateExists db shop.id (validateDiscountPayload body).clean.userId = false)
    (hq : quotaBlocked shop.settings (countByShop db shop.id) = false)
    (hpub : publish = PublishOutcome.ok)
    (hcol : (db.discounts.any fun d => d.code == code) = true) :
    issuance secret apiKey body db publish code now newId = ⟨500, db, none⟩ := by
  unfold issuance issuanceRW
  simp [hauth, hval, hshop, hc, hm, hdup, hq, hpub, hcol]

/-- C8 witness: the collision theorem instantiated on the ledger where bob
draws the code alice already holds. -/
theorem C8_collision_surfaces_500_witness :
    issuance secretEnv secretEnv bodyBob db1 .ok "PRC-AS-000001" 0 2 = ⟨500, db1, none⟩ :=
  C8_collision_surfaces_500 secretEnv secretEnv bodyBob db1 .ok "PRC-AS-000001" 0 2 shopA
    (by decide) (by decide) (by decide) (by decide) (by decide) (by decide) (by decide)
    rfl (by decide)

/-! Webhook fixtures and helper lemmas. -/

/-- A concrete stand-in for the HMAC-SHA256-base64 digest, injective enough
for the witnesses (the theorems hold for every digest function). -/
def hmacSha256Ex (s : String) (bytes : List Nat) : String :=
  s ++ "#" ++ String.mk (bytes.map fun b => Char.ofNat (65 + b % 26))

/-- An unredeemed row holding code PRC-AS-1111. -/
def discRedeemable : DiscountRecord where
  id := 7
  shopId := 1
  userId := "alice"
  email := "alice@example.com"
  code := "PRC-AS-1111"
  type := "percentage"
  amount := 20
  createdAt := 0
  expiresAt := 2592000000
  syncedToShopify := false
  redeemedAt := none
  orderId := none
  orderAmount := none

/-- Ledger holding the redeemable row. -/
def dbRedeem : Db := { shops := [shopA], discounts := [discRedeemable] }

/-- First order using the code. -/
def order1 : OrderPayload where
  discountCodes := ["PRC-AS-1111"]
  orderId := "1001"
  createdAt := 5000
  totalPrice := 50

/-- A different, later order naming the same code. -/
def order2 : OrderPayload where
  discountCodes := ["PRC-AS-1111"]
  orderId := "2002"
  createdAt := 9000
  totalPrice := 70

/-- An order naming a code the ledger does not know. -/
def orderForeign : OrderPayload where
  discountCodes := ["OTHER-CODE"]
  orderId := "3003"
  createdAt := 1000
  totalPrice := 10

/-- Concrete JSON decoding of the three order bodies. -/
def decodeOrders : List Nat → Option OrderPayload
  | [1] => some order1
  | [2] => some order2
  | [3] => some orderForeign
  | _ => none

/-- Uninstall decoder stub for the witnesses. -/
def decodeUninstallNone : List Nat → Option UninstallPayload := fun _ => none

/-- Delivery of order1 against the fresh ledger. -/
def whDeliver1 : WebhookResult :=
  ordersCreate hmacSha256Ex (some "api-secret")
    (some (hmacSha256Ex "api-secret" [1])) (.raw [1]) decodeOrders dbRedeem

/-- Delivery of the different order2 against the ledger already redeemed by
order1. -/
def whDeliver2 : WebhookResult :=
  ordersCreate hmacSha256Ex (some "api-secret")
    (some (hmacSha256Ex "api-secret" [2])) (.raw [2]) decodeOrders whDeliver1.db

/-- applyRedemption never changes the code column. -/
theorem applyRedemption_code (order : OrderPayload) (i : Nat) (d : DiscountRecord) :
    (applyRedemption order i d).code = d.code := by
  unfold applyRedemption; split <;> rfl

/-- applyRedemption never changes the id column. -/
theorem applyRedemption_id (order : OrderPayload) (i : Nat) (d : DiscountRecord) :
    (applyRedemption order i d).id = d.id := by
  unfold applyRedemption; split <;> rfl

/-- Overwriting the redemption fields with the same order twice equals doing
it once. -/
theorem applyRedemption_idem (order : OrderPayload) (i : Nat) (d : DiscountRecord) :
    applyRedemption order i (applyRedemption order i d) = applyRedemption order i d := by
  by_cases h : (d.id == i) = true
  · simp [applyRedemption, h]
  · simp only [Bool.not_eq_true] at h
    simp [applyRedemption, h]

/-! Claim theorems: webhook path. -/

/-- C2 counterexample: an already-parsed (non-raw) body on orders-create is
answered 400, not 401 as the claim states. -/
theorem C2_counterexample :
    (ordersCreate hmacSha256Ex (some "api-secret") (some "sig") .parsed
      decodeOrders dbRedeem).status = 400 ∧
    (ordersCreate hmacSha256Ex (some "api-secret") (some "sig") .parsed
      decodeOrders dbRedeem).status ≠ 401 := by decide

/-- C2 amended: on both webhook routes the digest over the raw bytes is
compared with the header by plain string equality; a mismatching or missing
header yields 401, a non-raw body yields 400, a missing secret makes
createHmac throw and yields 500, and in each of these cases the database is
untouched, so no business logic runs. -/
theorem C2_verification_failures (hmacB64 : String → List Nat → String)
    (secret header : Option String) (s : String) (bytes : List Nat)
    (decodeOrder : List Nat → Option OrderPayload)
    (decodeUninstall : List Nat → Option UninstallPayload)
    (headerDomain : Option String) (now : Int) (db : Db)
    (hmis : header ≠ some (hmacB64 s bytes)) :
    ordersCreate hmacB64 secret header .parsed decodeOrder db = ⟨400, db⟩ ∧
    ordersCreate hmacB64 none header (.raw bytes) decodeOrder db = ⟨500, db⟩ ∧
    ordersCreate hmacB64 (some s) header (.raw bytes) decodeOrder db = ⟨401, db⟩ ∧
    appUninstalled hmacB64 secret header .parsed decodeUninstall headerDomain now db = ⟨400, db⟩ ∧
    appUninstalled hmacB64 none header (.raw bytes) decodeUninstall headerDomain now db = ⟨500, db⟩ ∧
    appUninstalled hmacB64 (some s) header (.raw bytes) decodeUninstall headerDomain now db
      = ⟨401, db⟩ := by
  have hb : (header == some (hmacB64 s bytes)) = false := by
    simp only [beq_eq_false_iff_ne, ne_eq]
    exact hmis
  exact ⟨rfl, rfl, by unfold ordersCreate; simp [hb], rfl, rfl,
         by unfold appUninstalled; simp [hb]⟩

/-- C2 witness: the failure cases instantiated with a tampered signature
header on the demo ledger. -/
theorem C2_verification_failures_witness :
    ordersCreate hmacSha256Ex (some "api-secret") (some "tampered") .parsed
      decodeOrders dbRedeem = ⟨400, dbRedeem⟩ ∧
    ordersCreate hmacSha256Ex none (some "tampered") (.raw [1]) decodeOrders dbRedeem
      = ⟨500, dbRedeem⟩ ∧
    ordersCreate hmacSha256Ex (some "api-secret") (some "tampered") (.raw [1])
      decodeOrders dbRedeem = ⟨401, dbRedeem⟩ ∧
    appUninstalled hmacSha256Ex (some "api-secret") (some "tampered") .parsed
      decodeUninstallNone none 0 dbRedeem = ⟨400, dbRedeem⟩ ∧
    appUninstalled hmacSha256Ex none (some "tampered") (.raw [1]) decodeUninstallNone
      none 0 dbRedeem = ⟨500, dbRedeem⟩ ∧
    appUninstalled hmacSha256Ex (some "api-secret") (some "tampered") (.raw [1])
      decodeUninstallNone none 0 dbRedeem = ⟨401, dbRedeem⟩ :=
  C2_verification_failures hmacSha256Ex (some "api-secret") (some "tampered")
    "api-secret" [1] decodeOrders decodeUninstallNone none 0 dbRedeem (by decide)

/-- C3 counterexample: the redemption update is an unconditional overwrite,
not a guarded no-op: after order 1001 redeems the row, delivering the
different verified order 2002 with the same code succeeds with 200 and
rewrites redeemedAt, orderId and orderAmount — so the fields are not set
exactly once and are reset by a later order. -/
theorem C3_counterexample :
    whDeliver1.status = 200 ∧
    whDeliver1.db.discounts.map (fun d => (d.redeemedAt, d.orderId)) =
      [(some 5000, some "1001")] ∧
    whDeliver2.status = 200 ∧
    whDeliver2.db.discounts.map (fun d => (d.redeemedAt, d.orderId)) =
      [(some 9000, some "2002")] := by decide

/-- Reconciling the same order a second time changes nothing further: the
second pass finds the same row (the code column is preserved) and overwrites
the redemption fields with the same values. -/
theorem reconcileOrder_idem (order : OrderPayload) (db : Db) :
    reconcileOrder order (reconcileOrder order db).db = reconcileOrder order db := by
  unfold reconcileOrder
  cases hcode : order.discountCodes.head? with
  | none => rfl
  | some code =>
    cases hemp : code == "" with
    | true => simp [hemp]
    | false =>
      simp only [hemp, Bool.false_eq_true, if_false]
      cases hfind : db.discounts.find? (fun d => d.code == code) with
      | none => simp [hfind]
      | some d =>
        have hpf : (fun x => x.code == code) ∘ applyRedemption order d.id
            = fun d2 => d2.code == code := by
          funext x
          simp [Function.comp, applyRedemption_code]
        have hfind2 :
            (db.discounts.map (applyRedemption order d.id)).find?
              (fun d2 => d2.code == code)
              = some (applyRedemption order d.id d) := by
          rw [List.find?_map, hpf, hfind]
          rfl
        have hmapmap :
            (db.discounts.map (applyRedemption order d.id)).map
              (applyRedemption order d.id)
              = db.discounts.map (applyRedemption order d.id) := by
          rw [List.map_map]
          exact List.map_congr_left fun x _ => applyRedemption_idem order d.id x
        simp [hfind2, applyRedemption_id, hmapmap]

/-- C3 amended: redelivering the identical order-created webhook is
idempotent in effect: the second delivery returns the same status and leaves
the database exactly as after the first delivery, because the overwrite
writes the same values again. -/
theorem C3_identical_redelivery_idempotent (hmacB64 : String → List Nat → String)
    (secret header : Option String) (body : WebhookBody)
    (decodeOrder : List Nat → Option OrderPayload) (db : Db) :
    ordersCreate hmacB64 secret header body decodeOrder
      (ordersCreate hmacB64 secret header body decodeOrder db).db =
    ordersCreate hmacB64 secret header body decodeOrder db := by
  unfold ordersCreate
  cases body with
  | parsed => rfl
  | raw bytes =>
    cases secret with
    | none => rfl
    | some s =>
      cases hb : header == some (hmacB64 s bytes) with
      | false => simp [hb]
      | true =>
        simp only [hb, if_true]
        cases hdec : decodeOrder bytes with
        | none => rfl
        | some order => exact reconcileOrder_idem order db

/-- C9: a verified order-created event whose order carries no discount code,
an empty code, or a code matching no row in the ledger ends with 200 and an
unchanged database. -/
theorem C9_no_code_or_unknown_code (hmacB64 : String → List Nat → String)
    (s : String) (bytes : List Nat) (decodeOrder : List Nat → Option OrderPayload)
    (order : OrderPayload) (db : Db)
    (hdec : decodeOrder bytes = some order)
    (hcode : ∀ c, order.discountCodes.head? = some c →
      db.discounts.find? (fun d => d.code == c) = none) :
    ordersCreate hmacB64 (some s) (some (hmacB64 s bytes)) (.raw bytes) decodeOrder db
      = ⟨200, db⟩ := by
  unfold ordersCreate reconcileOrder
  simp only [beq_self_eq_true, if_true, hdec]
  cases hc : order.discountCodes.head? with
  | none => rfl
  | some c =>
    by_cases hemp : c = ""
    · simp [hemp]
    · simp [hemp, hcode c hc]

/-- C9 witness: a verified order naming a foreign code leaves the ledger
unchanged and is answered 200. -/
theorem C9_no_code_or_unknown_code_witness :
    ordersCreate hmacSha256Ex (some "api-secret")
      (some (hmacSha256Ex "api-secret" [3])) (.raw [3]) decodeOrders dbRedeem
      = ⟨200, dbRedeem⟩ :=
  C9_no_code_or_unknown_code hmacSha256Ex "api-secret" [3] decodeOrders orderForeign
    dbRedeem rfl
    (by intro c hc
        have e : (some "OTHER-CODE" : Option String) = some c := hc
        injection e with e2
        subst e2
        decide)

/-! Claim theorems: payload validator. -/

/-- What the claim says the validator rejects: missing identifiers, bad
magnitude, expiry-days override outside [1,365], quota override below 1. -/
def specC5ShouldReject (b : RawBody) : Bool :=
  strFalsy b.shopDomain || strFalsy b.userId || strFalsy b.email ||
  jsNumIsBadAmount b.amount ||
  (match b.expiryDays with
   | none => false
   | some .nan => true
   | some (.num q) => decide (q < 1) || decide (365 < q)) ||
  (match b.maxDiscounts with
   | none => false
   | some .nan => true
   | some (.num q) => decide (q < 1))

/-- A body that the claim says must be rejected (expiry-days override 400,
outside [1,365]) but the validator accepts. -/
def bodyExpiry400 : RawBody where
  shopDomain := some "demo-shop.myshopify.com"
  userId := some "alice"
  email := some "alice@example.com"
  name := some "Alice Smith"
  amount := .num 20
  expiryDays := some (.num 400)
  maxDiscounts := none
  oneTimeUse := false
  categories := none
  allowedCountries := none
  allowedMemberTypes := none

/-- C5 counterexample: the validator does not reject exactly the claimed
inputs: an expiry-days override of 400 (outside [1,365]) should be rejected
per the claim, but validateDiscountPayload returns no error for it (the
value is silently clamped instead). -/
theorem C5_counterexample :
    ¬ (((validateDiscountPayload bodyExpiry400).errors ≠ []) ↔
        specC5ShouldReject bodyExpiry400 = true) := by decide

/-- C5 amended: the validator rejects, listing every violated field, exactly
when the shop, user or contact identifier is missing or the magnitude is not
numeric, ≤ 0 or > 100; each of the four error messages is present exactly
when its own condition is violated. An out-of-range expiry-days override is
not rejected but clamped into [1,365]; a quota override below 1 is passed
through unchecked; the validator is a pure function returning the normalized
object. -/
theorem C5_validator_exact (b : RawBody) :
    ((validateDiscountPayload b).errors = [] ↔
      (strFalsy b.shopDomain = false ∧ strFalsy b.userId = false ∧
       strFalsy b.email = false ∧ jsNumIsBadAmount b.amount = false)) ∧
    ("shopDomain required" ∈ (validateDiscountPayload b).errors ↔
      strFalsy b.shopDomain = true) ∧
    ("userId required" ∈ (validateDiscountPayload b).errors ↔
      strFalsy b.userId = true) ∧
    ("email required" ∈ (validateDiscountPayload b).errors ↔
      strFalsy b.email = true) ∧
    ("amount must be 1–100 (percentage only)" ∈ (validateDiscountPayload b).errors ↔
      jsNumIsBadAmount b.amount = true) ∧
    ((validateDiscountPayload b).clean.expiryDays.all
      (fun w => decide (1 ≤ w) && decide (w ≤ 365)) = true) ∧
    ((validateDiscountPayload b).clean.maxDiscounts = b.maxDiscounts) := by
  have hexp : (validateDiscountPayload b).clean.expiryDays.all
      (fun w => decide (1 ≤ w) && decide (w ≤ 365)) = true := by
    cases hv : b.expiryDays with
    | none => simp [validateDiscountPayload, hv]
    | some v =>
      simp only [validateDiscountPayload, hv, Option.all_some]
      refine (Bool.and_eq_true _ _).mpr ⟨?_, ?_⟩
      · simp
      · simp [max_le_iff]
  refine ⟨?_, ?_, ?_, ?_, ?_, hexp, rfl⟩ <;>
    (cases h1 : strFalsy b.shopDomain <;> cases h2 : strFalsy b.userId <;>
      cases h3 : strFalsy b.email <;> cases h4 : jsNumIsBadAmount b.amount <;>
      simp [validateDiscountPayload, h1, h2, h3, h4])

/-- C5 witness: the amended validator contract instantiated on the body with
the out-of-range expiry-days override. -/
theorem C5_validator_exact_witness :
    ((validateDiscountPayload bodyExpiry400).errors = [] ↔
      (strFalsy bodyExpiry400.shopDomain = false ∧ strFalsy bodyExpiry400.userId = false ∧
       strFalsy bodyExpiry400.email = false ∧ jsNumIsBadAmount bodyExpiry400.amount = false)) ∧
    ("shopDomain required" ∈ (validateDiscountPayload bodyExpiry400).errors ↔
      strFalsy bodyExpiry400.shopDomain = true) ∧
    ("userId required" ∈ (validateDiscountPayload bodyExpiry400).errors ↔
      strFalsy bodyExpiry400.userId = true) ∧
    ("email required" ∈ (validateDiscountPayload bodyExpiry400).errors ↔
      strFalsy bodyExpiry400.email = true) ∧
    ("amount must be 1–100 (percentage only)" ∈ (validateDiscountPayload bodyExpiry400).errors ↔
      jsNumIsBadAmount bodyExpiry400.amount = true) ∧
    ((validateDiscountPayload bodyExpiry400).clean.expiryDays.all
      (fun w => decide (1 ≤ w) && decide (w ≤ 365)) = true) ∧
    ((validateDiscountPayload bodyExpiry400).clean.maxDiscounts = bodyExpiry400.maxDiscounts) :=
  C5_validator_exact bodyExpiry400

/-! Claim theorems: code generator. -/

/-- substring(0,3) caps the initials at three characters. -/
theorem initialsOf_length_le (name : String) : (initialsOf name).length ≤ 3 := by
  show (((nameTokens name).filterMap firstInitial).take 3).length ≤ 3
  rw [List.length_take]
  exact min_le_left _ _

/-- Every digit the encoder emits is an uppercase hex digit. -/
theorem hexDigitU_mem : ∀ n < 16, hexDigitU n ∈ ("0123456789ABCDEF").toList := by decide

/-- Both characters of one encoded byte are uppercase hex digits. -/
theorem byteHexU_mem (b : Nat) : ∀ c ∈ byteHexU b, c ∈ ("0123456789ABCDEF").toList := by
  intro c hc
  have h1 : b % 256 / 16 < 16 := by
    have : b % 256 < 256 := Nat.mod_lt b (by norm_num)
    omega
  have h2 : b % 16 < 16 := Nat.mod_lt b (by norm_num)
  rcases List.mem_cons.mp hc with h | h
  · exact h ▸ hexDigitU_mem _ h1
  · rcases List.mem_cons.mp h with h | h
    · exact h ▸ hexDigitU_mem _ h2
    · cases h

/-- The hex encoding of n bytes has 2n characters. -/
theorem hexUpper_length (bytes : List Nat) : (hexUpper bytes).length = 2 * bytes.length := by
  induction bytes with
  | nil => rfl
  | cons b bs ih =>
    have hb : (byteHexU b).length = 2 := rfl
    show (byteHexU b ++ (bs.map byteHexU).flatten).length = 2 * (bs.length + 1)
    rw [List.length_append, hb]
    have ih2 : ((bs.map byteHexU).flatten).length = 2 * bs.length := ih
    omega

/-- Every character of the hex suffix is an uppercase hex digit. -/
theorem hexUpper_mem (bytes : List Nat) :
    ∀ c ∈ (hexUpper bytes).toList, c ∈ ("0123456789ABCDEF").toList := by
  intro c hc
  have hc2 : c ∈ (bytes.map byteHexU).flatten := hc
  rcases List.mem_flatten.mp hc2 with ⟨l, hl, hcl⟩
  rcases List.mem_map.mp hl with ⟨b, hb, rfl⟩
  exact byteHexU_mem b c hcl

/-- C7 counterexample: the generator variant the claim also cites (part_007
lines 22-33, the Math.random one) violates the claimed shape: an empty name
yields an empty initials segment instead of the fallback "XX", and a
four-token name yields four initials instead of at most three; its suffix is
base-36 of Math.random, not hex of a cryptographically strong source. -/
theorem C7_counterexample :
    generateDiscountCode_mathRandom "" "4f9d" = "PRC--4F9D" ∧
    initialsUncapped "" = "" ∧
    ("" : String) ≠ "XX" ∧
    initialsUncapped "Anna Bella Cara Dora" = "ABCD" ∧
    (initialsUncapped "Anna Bella Cara Dora").length = 4 := by decide

/-- C7 amended: the crypto.randomBytes generator of part_006 does satisfy
the claimed shape for every display name: the output is
PRC-(initials or XX)-(hex suffix), the initials are capped at three
characters, the suffix over the three random bytes has exactly six
characters, all uppercase hex digits, and a name with no tokens falls back
to the XX segment. The part_007 variants do not satisfy this (see the
counterexample). -/
theorem C7_generator_format (name : String) (entropy : List Nat)
    (h3 : entropy.length = 3) :
    generateDiscountCode name entropy =
      "PRC-" ++ (if initialsOf name = "" then "XX" else initialsOf name) ++ "-" ++
        hexUpper entropy ∧
    (initialsOf name).length ≤ 3 ∧
    (hexUpper entropy).length = 6 ∧
    (∀ c ∈ (hexUpper entropy).toList, c ∈ ("0123456789ABCDEF").toList) ∧
    (nameTokens name = [] →
      (if initialsOf name = "" then "XX" else initialsOf name) = "XX") := by
  refine ⟨rfl, initialsOf_length_le name, ?_, hexUpper_mem entropy, ?_⟩
  · rw [hexUpper_length, h3]
  · intro h
    have hinit : initialsOf name = "" := by simp [initialsOf, h]
    simp [hinit]

/-- C7 witness: the format theorem instantiated at the name Greg Wilson with
the bytes 0x4f 0x9d 0x7c. -/
theorem C7_generator_format_witness :
    generateDiscountCode "Greg Wilson" [79, 157, 124] =
      "PRC-" ++ (if initialsOf "Greg Wilson" = "" then "XX"
        else initialsOf "Greg Wilson") ++ "-" ++ hexUpper [79, 157, 124] ∧
    (initialsOf "Greg Wilson").length ≤ 3 ∧
    (hexUpper [79, 157, 124]).length = 6 ∧
    (∀ c ∈ (hexUpper [79, 157, 124]).toList, c ∈ ("0123456789ABCDEF").toList) ∧
    (nameTokens "Greg Wilson" = [] →
      (if initialsOf "Greg Wilson" = "" then "XX" else initialsOf "Greg Wilson") = "XX") :=
  C7_generator_format "Greg Wilson" [79, 157, 124] rfl

end ProCircle
